import Mathlib

/-!
Shallow embedding of `src/model_train.py` from the `house_price` repository.

The script orchestrates: selecting feature columns from a labeled dataset,
splitting it into train/validation partitions with a fixed seed, fitting a
fixed set of candidate regressors, scoring each with the mean squared log
error metric, persisting each fitted predictor together with the feature
list, and assembling an error table plus an augmented prediction table.

External statistical libraries (sklearn, xgboost, numpy, pandas internals)
are out of scope per the spec; they are represented by an abstract `Lib`
interface of pure functions.  Values in tables are modelled as rationals.
Stateful Python code (the `Trainer` object, in-place pandas column
assignment, file writes) is modelled by explicit state passing: methods
return the updated `Trainer` together with their outputs, and the file
writes performed by `benchmark` are collected in a `BenchResult` record.
-/

/-- Numeric cell value of the tabular data (Python floats modelled as rationals). -/
abbrev Value := ℚ

/-- Look up a column by name in an association list of columns (first match,
mirroring pandas column access on label-unique frames). -/
def colFind : List (String × List Value) → String → Option (List Value)
  | [], _ => none
  | c :: rest, n => if c.1 == n then some c.2 else colFind rest n

/-- Pandas-style column assignment `df[n] = vs`: replace the column in place
if the label exists, otherwise append it on the right. -/
def colSet : List (String × List Value) → String → List Value → List (String × List Value)
  | [], n, vs => [(n, vs)]
  | c :: rest, n, vs => if c.1 == n then (n, vs) :: rest else c :: colSet rest n vs

/-- Whether a column with the given label exists. -/
def colHas : List (String × List Value) → String → Bool
  | [], _ => false
  | c :: rest, n => c.1 == n || colHas rest n

/-- A pandas DataFrame: ordered, labelled columns of numeric values. -/
structure DataFrame where
  cols : List (String × List Value)
deriving DecidableEq

/-- Column access `df[n]`. -/
def DataFrame.getCol (df : DataFrame) (n : String) : Option (List Value) :=
  colFind df.cols n

/-- Column access with a default for the (in Python, aborting) missing case. -/
def DataFrame.getColD (df : DataFrame) (n : String) (d : List Value) : List Value :=
  (colFind df.cols n).getD d

/-- Column assignment `df[n] = vs`. -/
def DataFrame.setCol (df : DataFrame) (n : String) (vs : List Value) : DataFrame :=
  ⟨colSet df.cols n vs⟩

/-- Column-membership test. -/
def DataFrame.hasCol (df : DataFrame) (n : String) : Bool :=
  colHas df.cols n

/-- Column projection `df[names]` keeping the requested order. -/
def DataFrame.select (df : DataFrame) (names : List String) : DataFrame :=
  ⟨names.filterMap (fun n => (colFind df.cols n).map (fun vs => (n, vs)))⟩

/-- `df.drop(n, axis=columns)`. -/
def DataFrame.drop (df : DataFrame) (n : String) : DataFrame :=
  ⟨df.cols.filter (fun c => !(c.1 == n))⟩

/-- A regressor after `fit`: it can predict a value per row of a frame. -/
structure FittedModel where
  predict : DataFrame → List Value

/-- An untrained regressor configuration: `fit` consumes a design matrix and a
target vector and yields a fitted model (Python mutates the model in place;
here `fit` returns the fitted object). -/
structure RegModel where
  fit : DataFrame → List Value → FittedModel

/-- Modelled from the spec: the `Predictor` class of `src/predict.py`, which is
not included under `src/`.  Per the spec a trained predictor is a fitted model
bundled with the feature list used to produce it, needed at inference time to
reselect the same columns. -/
structure Predictor where
  model : FittedModel
  features : List String

/-- Modelled from the spec: the `DataPrep` preprocess artifact of
`src/data_prep.py`, which is not included under `src/`.  Per the spec it is an
ordered list of column names to use as model inputs; the trainer reads only its
`features` field. -/
structure DataPrep where
  features : List String

/-- The external statistical libraries used by the script, as an abstract
interface: the train/validation splitter (arguments: X, y, test_size,
stratify, random_state; result: X_train, X_valid, y_train, y_valid), the
regressor constructors (arguments: random_state and/or n_estimators), and the
`log1p` numeric kernel of the metric. -/
structure Lib where
  train_test_split : DataFrame → List Value → ℚ → Option (List Value) → ℕ →
    DataFrame × DataFrame × List Value × List Value
  gradientBoosting : ℕ → ℕ → RegModel
  randomForest : ℕ → ℕ → RegModel
  xgboost : ℕ → RegModel
  ridge : ℕ → RegModel
  lasso : ℕ → RegModel
  log1p : ℚ → ℚ

/-- `SEED = 1` from `model_train.py`. -/
def SEED : ℕ := 1

/-- Modelled from the spec: the model-directory path constant imported from
`src/setting.py`, which is not included under `src/`.  Its concrete value is
immaterial; the spec only says predictors are persisted inside the model
directory. -/
def MODEL_DIR : String := "models"

/-- `os.path.join` for the simple relative components used by the script. -/
def os_path_join (a b : String) : String := a ++ "/" ++ b

/-- `rm_space(s)`: `s.replace(' ', '_').lower()`.  The pattern is the single
space character, so the replacement is rendered character-wise; lowering an
underscore is the identity, so lowering per character after the replacement
agrees with the Python order of operations. -/
def rm_space (s : String) : String :=
  String.mk (s.data.map (fun c => if c = ' ' then '_' else c.toLower))

/-- Arithmetic mean, as used by the metric. -/
def mean (l : List ℚ) : ℚ := l.sum / (l.length : ℚ)

/-- sklearn `mean_squared_log_error(y_true, y_pred)`: raises `ValueError` when
either argument contains a negative value (the logarithm would be undefined),
otherwise returns the mean of the squared differences of `log1p` of the
entries. -/
def mean_squared_log_error (log1p : ℚ → ℚ) (y_true y_pred : List ℚ) : Except String ℚ :=
  if y_true.any (fun v => decide (v < 0)) || y_pred.any (fun v => decide (v < 0)) then
    Except.error "Mean Squared Logarithmic Error cannot be used when targets contain negative values."
  else
    Except.ok (mean (List.zipWith (fun t p => (log1p t - log1p p) ^ 2) y_true y_pred))

/-- The Python `try ... except ValueError: return np.nan` around the metric
call: an `Except` result downgraded to an `Option`, `none` standing for the
`NaN` missing-value marker. -/
def exceptToOption : Except String ℚ → Option ℚ
  | Except.ok e => some e
  | Except.error _ => none

/-- Python dict assignment `d[k] = v` on an insertion-ordered dict rendered as
an association list: overwrite in place if present, else append. -/
def setAssoc (l : List (String × α)) (k : String) (v : α) : List (String × α) :=
  match l with
  | [] => [(k, v)]
  | c :: rest => if c.1 == k then (k, v) :: rest else c :: setAssoc rest k v

/-- Python dict lookup `d[k]` with a default for the (aborting) missing case. -/
def getAssocD (l : List (String × α)) (k : String) (d : α) : α :=
  match l with
  | [] => d
  | c :: rest => if c.1 == k then c.2 else getAssocD rest k d

/-- `set_linear_models()`: the two regularized linear candidates (constructed
by the script but excluded from the active candidate set). -/
def set_linear_models (lib : Lib) : List (String × RegModel) :=
  [("Lasso Regression", lib.lasso SEED), ("Ridge Regression", lib.ridge SEED)]

/-- `set_tree_models(n_estimators)`: the three active tree-ensemble
candidates, in the insertion order of the Python dict. -/
def set_tree_models (lib : Lib) (n_estimators : ℕ) : List (String × RegModel) :=
  [("Boosted Regression Tree", lib.gradientBoosting SEED n_estimators),
   ("Random Forest", lib.randomForest SEED n_estimators),
   ("XGBoost", lib.xgboost n_estimators)]

/-- The `Trainer` object state. -/
structure Trainer where
  n_estimator : ℕ
  features : List String
  X_train : DataFrame
  y_train : List Value
  X_valid : DataFrame
  y_valid : List Value
  models : List (String × RegModel)
  predictions : List (String × List Value)

/-- Python truthiness of the optional `stratify` argument, as tested by
`if not stratify:`: `None` and an empty sequence are falsy, a nonempty
sequence is truthy. -/
def pyTruthy (s : Option (List Value)) : Bool :=
  match s with
  | none => false
  | some l => !l.isEmpty

/-- `Trainer.__init__`: keep the preprocess feature list, select those columns
plus `SalePrice` from the input, split off the target, split rows into train
and validation partitions with the fixed seed (stratified when the stratify
argument is truthy), and install the tree-model candidate set. -/
def Trainer.make (lib : Lib) (train : DataFrame) (vf : ℚ) (preprocess : DataPrep)
    (stratify : Option (List Value)) (n_estimators : ℕ) : Trainer :=
  let features := preprocess.features
  let cols := features ++ ["SalePrice"]
  let compact_train := train.select cols
  let X := compact_train.drop "SalePrice"
  let y := compact_train.getColD "SalePrice" []
  let parts :=
    if !(pyTruthy stratify) then
      lib.train_test_split X y vf none SEED
    else
      lib.train_test_split X y vf stratify SEED
  { n_estimator := n_estimators
    features := features
    X_train := parts.1
    y_train := parts.2.2.1
    X_valid := parts.2.1
    y_valid := parts.2.2.2
    models := set_tree_models lib n_estimators
    predictions := [] }

/-- `Trainer.dump_predictor`: the file write `joblib.dump(Predictor(model,
self.features), MODEL_DIR/fname)` with `fname = rm_space(name) +
str(self.n_estimator) + ".pkl"`, rendered as the (path, payload) pair. -/
def Trainer.dump_predictor (t : Trainer) (model : FittedModel) (name : String) :
    String × Predictor :=
  let fname := rm_space name ++ toString t.n_estimator ++ ".pkl"
  (os_path_join MODEL_DIR fname, ⟨model, t.features⟩)

/-- `Trainer.eval`: fit the model on the training partition, dump the fitted
predictor, predict on the validation partition, record the predictions, then
attempt the metric; a `ValueError` becomes the `NaN` marker (`none`).  Returns
(error cell, updated trainer, performed predictor dump). -/
def Trainer.eval (lib : Lib) (t : Trainer) (model : RegModel) (name : String) :
    Option ℚ × Trainer × (String × Predictor) :=
  let fitted := model.fit t.X_train t.y_train
  let dump := t.dump_predictor fitted name
  let y_pred := fitted.predict t.X_valid
  let t1 := { t with predictions := setAssoc t.predictions name y_pred }
  let err := exceptToOption (mean_squared_log_error lib.log1p t.y_valid y_pred)
  (err, t1, dump)

/-- `Trainer.retrieve_predictions`: `predict_df = self.X_valid` aliases the
stored validation frame, so the in-place pandas column assignments mutate the
trainer state; modelled by returning both the augmented frame and the trainer
whose `X_valid` now is that frame. -/
def Trainer.retrieve_predictions (t : Trainer) : DataFrame × Trainer :=
  let df0 := t.X_valid
  let df1 := df0.setCol "SalePrice" t.y_valid
  let df := t.models.foldl
    (fun df nm =>
      let preds := getAssocD t.predictions nm.1 []
      let df := df.setCol ("price_predict_" ++ nm.1) preds
      df.setCol (rm_space nm.1 ++ "_error")
        (List.zipWith (fun a b => a - b) preds (df.getColD "SalePrice" [])))
    df1
  (df, { t with X_valid := df })

/-- One row of the error table `benchmark` returns: model name, metric value
(`none` is the `NaN` marker), ensemble-size tag. -/
structure ErrorRow where
  model : String
  mean_squared_log_error : Option ℚ
  n_estimator : ℕ
deriving DecidableEq

/-- Everything `Trainer.benchmark` produces: the returned error table, the
prediction CSV write (path and table), the predictor-file writes, and the
post-call trainer state. -/
structure BenchResult where
  error_df : List ErrorRow
  pred_csv : String × DataFrame
  dumps : List (String × Predictor)
  trainer : Trainer

/-- `Trainer.benchmark(pred_file)`: evaluate every candidate in order,
collecting the error dict and the predictor dumps, build the error table
tagged with the ensemble size, write the augmented prediction table to
`pred_file`, and return the error table. -/
def Trainer.benchmark (lib : Lib) (t : Trainer) (pred_file : String) : BenchResult :=
  let step := fun (acc : List (String × Option ℚ) × Trainer × List (String × Predictor))
                  (nm : String × RegModel) =>
    let r := acc.2.1.eval lib nm.2 nm.1
    (setAssoc acc.1 nm.1 r.1, r.2.1, acc.2.2 ++ [r.2.2])
  let folded := t.models.foldl step ([], t, [])
  let error_df := folded.1.map (fun p => ErrorRow.mk p.1 p.2 t.n_estimator)
  let rp := folded.2.1.retrieve_predictions
  { error_df := error_df
    pred_csv := (pred_file, rp.1)
    dumps := folded.2.2
    trainer := rp.2 }

/-! ### Concrete exemplar inputs

A tiny dataset and a concrete instantiation of the external-library interface,
used by the closed witness and counterexample theorems.  The exemplar splitter
uses the whole dataset as both partitions; the exemplar random forest predicts
the negation of the `f1` column, so its predictions are negative and the log
metric is undefined on them. -/

/-- Exemplar labeled dataset: one feature column and the target. -/
def exDF : DataFrame := ⟨[("f1", [1, 2]), ("SalePrice", [3, 4])]⟩

/-- Exemplar preprocess artifact selecting the single feature `f1`. -/
def exDP : DataPrep := ⟨["f1"]⟩

/-- A regressor that ignores training data and predicts with a fixed rule. -/
def constModel (f : DataFrame → List Value) : RegModel := ⟨fun _ _ => ⟨f⟩⟩

/-- Exemplar library instantiation. -/
def exLib : Lib where
  train_test_split := fun X y _ _ _ => (X, X, y, y)
  gradientBoosting := fun _ _ => constModel (fun df => df.getColD "f1" [])
  randomForest := fun _ _ => constModel (fun df => (df.getColD "f1" []).map (fun v => -v))
  xgboost := fun _ => constModel (fun df => df.getColD "f1" [])
  ridge := fun _ => constModel (fun _ => [])
  lasso := fun _ => constModel (fun _ => [])
  log1p := fun q => q

/-- Exemplar library sharing the splitter of `exLib` but with a different
numeric kernel for the metric. -/
def exLib2 : Lib := { exLib with log1p := fun q => q + 1 }

/-- Exemplar library whose splitter is sensitive to the stratify argument:
it returns empty partitions exactly when a stratify key is passed through. -/
def exLibS : Lib :=
  { exLib with
    train_test_split := fun X y _ s _ =>
      if s.isSome then (⟨[]⟩, ⟨[]⟩, [], []) else (X, X, y, y) }

/-! ### Column-access lemmas -/

/-- Reading a column after assignment: the assigned list if the labels match,
the previous content otherwise. -/
theorem colFind_colSet (l : List (String × List Value)) (n n' : String) (vs : List Value) :
    colFind (colSet l n' vs) n = if n == n' then some vs else colFind l n := by
  induction l with
  | nil =>
    by_cases h : n = n' <;> simp [colSet, colFind, h]
    intro h2
    exact absurd h2.symm h
  | cons c rest ih =>
    by_cases h1 : c.1 = n'
    · by_cases h2 : n = n'
      · simp [colSet, colFind, h1, h2]
      · have h3 : ¬n' = n := fun h => h2 h.symm
        simp [colSet, colFind, h1, h2, h3]
    · by_cases h2 : n = n'
      · subst h2
        simp [colSet, colFind, h1, ih]
      · simp [colSet, colFind, h1, h2, ih]

/-- Column membership after assignment. -/
theorem colHas_colSet (l : List (String × List Value)) (n n' : String) (vs : List Value) :
    colHas (colSet l n' vs) n = (colHas l n || n == n') := by
  induction l with
  | nil =>
    by_cases h : n = n' <;> simp [colSet, colHas, h]
    intro h2
    exact absurd h2.symm h
  | cons c rest ih =>
    by_cases h1 : c.1 = n'
    · by_cases h2 : n = n'
      · simp [colSet, colHas, h1, h2]
      · have h3 : ¬n' = n := fun h => h2 h.symm
        simp [colSet, colHas, h1, h2, h3]
    · by_cases h2 : n = n'
      · subst h2
        simp [colSet, colHas, h1, ih]
      · simp only [colSet, h1, if_false, colHas, ih, beq_iff_eq, h2]
        cases hb : (c.1 == n) <;> cases hc : colHas rest n <;> simp [h2]

/-- `DataFrame` version of `colFind_colSet`. -/
theorem getCol_setCol (df : DataFrame) (n n' : String) (vs : List Value) :
    (df.setCol n' vs).getCol n = if n == n' then some vs else df.getCol n :=
  colFind_colSet df.cols n n' vs

/-- `DataFrame` version of `colHas_colSet`. -/
theorem hasCol_setCol (df : DataFrame) (n n' : String) (vs : List Value) :
    (df.setCol n' vs).hasCol n = (df.hasCol n || n == n') :=
  colHas_colSet df.cols n n' vs

/-- Entry of a zipped subtraction at an in-bounds index. -/
theorem getElem?_zipWith_sub (l1 l2 : List ℚ) (i : ℕ) (h1 : i < l1.length) (h2 : i < l2.length) :
    (List.zipWith (fun a b => a - b) l1 l2)[i]? = some (l1[i]?.getD 0 - l2[i]?.getD 0) := by
  induction l1 generalizing l2 i with
  | nil => simp at h1
  | cons a t ih =>
    cases l2 with
    | nil => simp at h2
    | cons b t2 =>
      cases i with
      | zero => simp
      | succ j =>
        simpa using ih t2 j (by simpa using h1) (by simpa using h2)

/-- `getColD` unfolds to `getCol` with a default. -/
theorem DataFrame.getColD_eq (df : DataFrame) (n : String) (d : List Value) :
    df.getColD n d = (df.getCol n).getD d := rfl

/-! ### Claim theorems -/

/-- C3: for every candidate model, the feature list used to select the columns
the candidate is fitted and scored on (`Trainer.features`, taken from the
preprocess artifact) is the same list that is stored inside the persisted
`Predictor` for that candidate.  The trainer keeps `preprocess.features`, and
every predictor dump performed by `benchmark` bundles the model fitted on the
trainer design matrix with exactly that list. -/
theorem c3_features_fit_equals_persisted (lib : Lib) (train : DataFrame) (vf : ℚ)
    (dp : DataPrep) (strat : Option (List Value)) (n : ℕ) (f : String) :
    (Trainer.make lib train vf dp strat n).features = dp.features ∧
    ((Trainer.make lib train vf dp strat n).benchmark lib f).dumps.map (fun d => d.2.features) =
      (Trainer.make lib train vf dp strat n).models.map (fun _ => dp.features) ∧
    ((Trainer.make lib train vf dp strat n).benchmark lib f).dumps.map (fun d => d.2.model) =
      (Trainer.make lib train vf dp strat n).models.map
        (fun nm => nm.2.fit (Trainer.make lib train vf dp strat n).X_train
          (Trainer.make lib train vf dp strat n).y_train) :=
  ⟨rfl, rfl, rfl⟩

/-- C4: `Trainer.benchmark` returns an error table with exactly one row per
configured candidate model, each row carrying the candidate name, its metric
value (the optionally downgraded mean squared log error of its validation
predictions), and the run ensemble size. -/
theorem c4_one_error_row_per_candidate (lib : Lib) (train : DataFrame) (vf : ℚ)
    (dp : DataPrep) (strat : Option (List Value)) (n : ℕ) (f : String) :
    ((Trainer.make lib train vf dp strat n).benchmark lib f).error_df.length =
      (Trainer.make lib train vf dp strat n).models.length ∧
    ((Trainer.make lib train vf dp strat n).benchmark lib f).error_df.map ErrorRow.model =
      (Trainer.make lib train vf dp strat n).models.map Prod.fst ∧
    ((Trainer.make lib train vf dp strat n).benchmark lib f).error_df.map ErrorRow.n_estimator =
      (Trainer.make lib train vf dp strat n).models.map (fun _ => n) ∧
    ((Trainer.make lib train vf dp strat n).benchmark lib f).error_df.map
        ErrorRow.mean_squared_log_error =
      (Trainer.make lib train vf dp strat n).models.map (fun nm =>
        exceptToOption (mean_squared_log_error lib.log1p
          (Trainer.make lib train vf dp strat n).y_valid
          ((nm.2.fit (Trainer.make lib train vf dp strat n).X_train
            (Trainer.make lib train vf dp strat n).y_train).predict
              (Trainer.make lib train vf dp strat n).X_valid))) :=
  ⟨rfl, rfl, rfl, rfl⟩

/-- C5: with the fixed seed `SEED = 1`, the train/validation split is a
deterministic function of its inputs: two `Trainer` constructions over
splitters that agree at the fixed seed, on identical dataset, validation
fraction, feature list, stratification and ensemble size, produce identical
train/validation partitions. -/
theorem c5_split_deterministic_fixed_seed (lib1 lib2 : Lib) (train : DataFrame) (vf : ℚ)
    (dp : DataPrep) (strat : Option (List Value)) (n : ℕ)
    (hsplit : ∀ X y r s, lib1.train_test_split X y r s SEED = lib2.train_test_split X y r s SEED) :
    SEED = 1 ∧
    (Trainer.make lib1 train vf dp strat n).X_train = (Trainer.make lib2 train vf dp strat n).X_train ∧
    (Trainer.make lib1 train vf dp strat n).X_valid = (Trainer.make lib2 train vf dp strat n).X_valid ∧
    (Trainer.make lib1 train vf dp strat n).y_train = (Trainer.make lib2 train vf dp strat n).y_train ∧
    (Trainer.make lib1 train vf dp strat n).y_valid = (Trainer.make lib2 train vf dp strat n).y_valid := by
  refine ⟨rfl, ?_⟩
  by_cases h : pyTruthy strat <;> simp [Trainer.make, h, hsplit]

/-- C5 witness: satisfiable at two library instantiations that share the
splitter but differ elsewhere. -/
theorem c5_split_deterministic_fixed_seed_witness :
    (Trainer.make exLib exDF (1/10) exDP none 100).X_train =
      (Trainer.make exLib2 exDF (1/10) exDP none 100).X_train ∧
    (Trainer.make exLib exDF (1/10) exDP none 100).y_valid =
      (Trainer.make exLib2 exDF (1/10) exDP none 100).y_valid :=
  ⟨(c5_split_deterministic_fixed_seed exLib exLib2 exDF (1/10) exDP none 100
      (fun _ _ _ _ => rfl)).2.1,
   (c5_split_deterministic_fixed_seed exLib exLib2 exDF (1/10) exDP none 100
      (fun _ _ _ _ => rfl)).2.2.2.2⟩

/-- C7: every predictor dump of a `benchmark` run writes, inside the model
directory, a file named from the candidate name normalized by `rm_space`
(spaces to underscores, lowercased) concatenated with the ensemble size and
the `.pkl` extension, and the payload is the fitted model bundled with the
trainer feature list; on the three concrete candidate names the normalization
yields the expected file basenames. -/
theorem c7_predictor_file_naming (lib : Lib) (train : DataFrame) (vf : ℚ)
    (dp : DataPrep) (strat : Option (List Value)) (n : ℕ) (f : String) :
    ((Trainer.make lib train vf dp strat n).benchmark lib f).dumps =
      (Trainer.make lib train vf dp strat n).models.map (fun nm =>
        (os_path_join MODEL_DIR (rm_space nm.1 ++
            toString (Trainer.make lib train vf dp strat n).n_estimator ++ ".pkl"),
         ⟨nm.2.fit (Trainer.make lib train vf dp strat n).X_train
            (Trainer.make lib train vf dp strat n).y_train,
          (Trainer.make lib train vf dp strat n).features⟩)) ∧
    rm_space "Boosted Regression Tree" = "boosted_regression_tree" ∧
    rm_space "Random Forest" = "random_forest" ∧
    rm_space "XGBoost" = "xgboost" :=
  ⟨rfl, by decide, by decide, by decide⟩

/-- C8: running the benchmark with ensemble size 100 and again with ensemble
size 150 on identical input data yields, in the concatenated aggregate metrics
table, exactly two rows per candidate: both carry that candidate name, the
first is tagged 100 and the second 150 (the rows can thus differ only in the
size tag and in the metric value). -/
theorem c8_two_runs_two_rows_per_candidate (lib : Lib) (train : DataFrame) (vf : ℚ)
    (dp : DataPrep) (strat : Option (List Value)) (f1 f2 : String) :
    ((((Trainer.make lib train vf dp strat 100).benchmark lib f1).error_df ++
        ((Trainer.make lib train vf dp strat 150).benchmark lib f2).error_df).filter
          (fun r => r.model == "Boosted Regression Tree")).map
        (fun r => (r.model, r.n_estimator)) =
      [("Boosted Regression Tree", 100), ("Boosted Regression Tree", 150)] ∧
    ((((Trainer.make lib train vf dp strat 100).benchmark lib f1).error_df ++
        ((Trainer.make lib train vf dp strat 150).benchmark lib f2).error_df).filter
          (fun r => r.model == "Random Forest")).map
        (fun r => (r.model, r.n_estimator)) =
      [("Random Forest", 100), ("Random Forest", 150)] ∧
    ((((Trainer.make lib train vf dp strat 100).benchmark lib f1).error_df ++
        ((Trainer.make lib train vf dp strat 150).benchmark lib f2).error_df).filter
          (fun r => r.model == "XGBoost")).map
        (fun r => (r.model, r.n_estimator)) =
      [("XGBoost", 100), ("XGBoost", 150)] :=
  ⟨rfl, rfl, rfl⟩

/-- C1: for any candidate model, if the mean squared log error of its
validation predictions is undefined (the library raises, e.g. on negative
predicted values), `Trainer.eval` returns the missing-value marker (`none`,
standing for NaN) for that candidate, and `benchmark` still returns an error
table containing a row for that candidate, whose error cell is the marker. -/
theorem c1_undefined_metric_is_nan_row (lib : Lib) (train : DataFrame) (vf : ℚ)
    (dp : DataPrep) (strat : Option (List Value)) (n : ℕ) (f : String)
    (name : String) (m : RegModel)
    (hm : (name, m) ∈ (Trainer.make lib train vf dp strat n).models)
    (hund : exceptToOption (mean_squared_log_error lib.log1p
      (Trainer.make lib train vf dp strat n).y_valid
      ((m.fit (Trainer.make lib train vf dp strat n).X_train
        (Trainer.make lib train vf dp strat n).y_train).predict
          (Trainer.make lib train vf dp strat n).X_valid)) = none) :
    ((Trainer.make lib train vf dp strat n).eval lib m name).1 = none ∧
    ((Trainer.make lib train vf dp strat n).benchmark lib f).error_df.find?
        (fun r => r.model == name) =
      some (ErrorRow.mk name none n) := by
  simp [Trainer.make, set_tree_models, List.mem_cons, Prod.mk.injEq] at hm
  rcases hm with ⟨rfl, rfl⟩ | ⟨rfl, rfl⟩ | ⟨rfl, rfl⟩ <;>
  · simp [Trainer.make, set_tree_models] at hund
    simp +decide [Trainer.benchmark, Trainer.make, Trainer.eval, set_tree_models,
      Trainer.dump_predictor, setAssoc, hund, List.find?]

/-- C1 witness: at the exemplar inputs the random forest candidate predicts
negative values, the metric is undefined and the marker row is produced. -/
theorem c1_undefined_metric_is_nan_row_witness :
    ((Trainer.make exLib exDF (1/10) exDP none 100).eval exLib
        (exLib.randomForest SEED 100) "Random Forest").1 = none ∧
    ((Trainer.make exLib exDF (1/10) exDP none 100).benchmark exLib "p.csv").error_df.find?
        (fun r => r.model == "Random Forest") =
      some (ErrorRow.mk "Random Forest" none 100) :=
  c1_undefined_metric_is_nan_row exLib exDF (1/10) exDP none 100 "p.csv"
    "Random Forest" (exLib.randomForest SEED 100)
    (by simp [Trainer.make, set_tree_models]) (by decide)

/-- C2: in the prediction table written by `Trainer.benchmark`, for every
candidate model and every in-bounds validation row index, the error column of
the candidate equals its predicted value minus the true target (the SalePrice
column) of the same row. -/
theorem c2_residual_is_pred_minus_true (lib : Lib) (train : DataFrame) (vf : ℚ)
    (dp : DataPrep) (strat : Option (List Value)) (n : ℕ) (f : String)
    (name : String) (m : RegModel)
    (hm : (name, m) ∈ (Trainer.make lib train vf dp strat n).models) (i : ℕ)
    (h1 : i < (((Trainer.make lib train vf dp strat n).benchmark lib f).pred_csv.2.getColD
      ("price_predict_" ++ name) []).length)
    (h2 : i < (((Trainer.make lib train vf dp strat n).benchmark lib f).pred_csv.2.getColD
      "SalePrice" []).length) :
    (((Trainer.make lib train vf dp strat n).benchmark lib f).pred_csv.2.getColD
        (rm_space name ++ "_error") []).get? i =
      some ((((Trainer.make lib train vf dp strat n).benchmark lib f).pred_csv.2.getColD
          ("price_predict_" ++ name) []).getD i 0 -
        (((Trainer.make lib train vf dp strat n).benchmark lib f).pred_csv.2.getColD
          "SalePrice" []).getD i 0) := by
  simp [Trainer.make, set_tree_models, List.mem_cons, Prod.mk.injEq] at hm
  rcases hm with ⟨rfl, rfl⟩ | ⟨rfl, rfl⟩ | ⟨rfl, rfl⟩ <;>
  · simp +decide [Trainer.benchmark, Trainer.make, Trainer.eval, Trainer.retrieve_predictions,
      set_tree_models, Trainer.dump_predictor, DataFrame.getColD_eq, getCol_setCol,
      getAssocD] at h1 h2 ⊢
    exact getElem?_zipWith_sub _ _ i h1 h2

/-- C2 witness: first validation row of the boosted-tree candidate at the
exemplar inputs. -/
theorem c2_residual_is_pred_minus_true_witness :
    (("Boosted Regression Tree", exLib.gradientBoosting SEED 100) ∈
      (Trainer.make exLib exDF (1/10) exDP none 100).models) ∧
    (((Trainer.make exLib exDF (1/10) exDP none 100).benchmark exLib "p.csv").pred_csv.2.getColD
        (rm_space "Boosted Regression Tree" ++ "_error") []).get? 0 =
      some ((((Trainer.make exLib exDF (1/10) exDP none 100).benchmark exLib
            "p.csv").pred_csv.2.getColD
          ("price_predict_" ++ "Boosted Regression Tree") []).getD 0 0 -
        (((Trainer.make exLib exDF (1/10) exDP none 100).benchmark exLib
            "p.csv").pred_csv.2.getColD "SalePrice" []).getD 0 0) :=
  ⟨by simp [Trainer.make, set_tree_models],
   c2_residual_is_pred_minus_true exLib exDF (1/10) exDP none 100 "p.csv"
     "Boosted Regression Tree" (exLib.gradientBoosting SEED 100)
     (by simp [Trainer.make, set_tree_models]) 0 (by decide) (by decide)⟩

/-- C6 counterexample: the claim that a supplied stratification key always
yields a stratified split fails at an empty supplied key.  With the
stratify-sensitive exemplar splitter, the trainer built with `some []` does
NOT produce the partitions of the stratified call on that key, because
`if not stratify:` in the source tests Python truthiness and an empty
sequence is falsy. -/
theorem c6_stratify_counterexample :
    ¬ ((Trainer.make exLibS exDF (1/10) exDP (some []) 100).X_train =
       (exLibS.train_test_split ((exDF.select (exDP.features ++ ["SalePrice"])).drop "SalePrice")
          ((exDF.select (exDP.features ++ ["SalePrice"])).getColD "SalePrice" [])
          (1/10) (some []) SEED).1) := by decide

/-- C6 (amended): when no stratification key is supplied the split is
unstratified; when a supplied key is EMPTY it is falsy under the Python
truthiness test `if not stratify:` of the source, so the split is likewise
the unstratified call; only a NONEMPTY supplied key makes the split
stratified on that key. -/
theorem c6_stratified_split_amended (lib : Lib) (train : DataFrame) (vf : ℚ)
    (dp : DataPrep) (n : ℕ) :
    ((Trainer.make lib train vf dp none n).X_train =
        (lib.train_test_split ((train.select (dp.features ++ ["SalePrice"])).drop "SalePrice")
          ((train.select (dp.features ++ ["SalePrice"])).getColD "SalePrice" []) vf none SEED).1 ∧
      (Trainer.make lib train vf dp none n).X_valid =
        (lib.train_test_split ((train.select (dp.features ++ ["SalePrice"])).drop "SalePrice")
          ((train.select (dp.features ++ ["SalePrice"])).getColD "SalePrice" []) vf none SEED).2.1 ∧
      (Trainer.make lib train vf dp none n).y_train =
        (lib.train_test_split ((train.select (dp.features ++ ["SalePrice"])).drop "SalePrice")
          ((train.select (dp.features ++ ["SalePrice"])).getColD "SalePrice" []) vf none SEED).2.2.1 ∧
      (Trainer.make lib train vf dp none n).y_valid =
        (lib.train_test_split ((train.select (dp.features ++ ["SalePrice"])).drop "SalePrice")
          ((train.select (dp.features ++ ["SalePrice"])).getColD "SalePrice" []) vf none SEED).2.2.2) ∧
    ((Trainer.make lib train vf dp (some []) n).X_train =
        (lib.train_test_split ((train.select (dp.features ++ ["SalePrice"])).drop "SalePrice")
          ((train.select (dp.features ++ ["SalePrice"])).getColD "SalePrice" []) vf none SEED).1 ∧
      (Trainer.make lib train vf dp (some []) n).X_valid =
        (lib.train_test_split ((train.select (dp.features ++ ["SalePrice"])).drop "SalePrice")
          ((train.select (dp.features ++ ["SalePrice"])).getColD "SalePrice" []) vf none SEED).2.1 ∧
      (Trainer.make lib train vf dp (some []) n).y_train =
        (lib.train_test_split ((train.select (dp.features ++ ["SalePrice"])).drop "SalePrice")
          ((train.select (dp.features ++ ["SalePrice"])).getColD "SalePrice" []) vf none SEED).2.2.1 ∧
      (Trainer.make lib train vf dp (some []) n).y_valid =
        (lib.train_test_split ((train.select (dp.features ++ ["SalePrice"])).drop "SalePrice")
          ((train.select (dp.features ++ ["SalePrice"])).getColD "SalePrice" []) vf none SEED).2.2.2) ∧
    (∀ key : List Value, key ≠ [] →
      (Trainer.make lib train vf dp (some key) n).X_train =
        (lib.train_test_split ((train.select (dp.features ++ ["SalePrice"])).drop "SalePrice")
          ((train.select (dp.features ++ ["SalePrice"])).getColD "SalePrice" []) vf (some key) SEED).1 ∧
      (Trainer.make lib train vf dp (some key) n).X_valid =
        (lib.train_test_split ((train.select (dp.features ++ ["SalePrice"])).drop "SalePrice")
          ((train.select (dp.features ++ ["SalePrice"])).getColD "SalePrice" []) vf (some key) SEED).2.1 ∧
      (Trainer.make lib train vf dp (some key) n).y_train =
        (lib.train_test_split ((train.select (dp.features ++ ["SalePrice"])).drop "SalePrice")
          ((train.select (dp.features ++ ["SalePrice"])).getColD "SalePrice" []) vf (some key) SEED).2.2.1 ∧
      (Trainer.make lib train vf dp (some key) n).y_valid =
        (lib.train_test_split ((train.select (dp.features ++ ["SalePrice"])).drop "SalePrice")
          ((train.select (dp.features ++ ["SalePrice"])).getColD "SalePrice" []) vf (some key) SEED).2.2.2) := by
  refine ⟨⟨rfl, rfl, rfl, rfl⟩, ⟨rfl, rfl, rfl, rfl⟩, ?_⟩
  intro key hk
  cases key with
  | nil => exact absurd rfl hk
  | cons a tl => exact ⟨rfl, rfl, rfl, rfl⟩

/-- C6 witness: a nonempty key at the stratify-sensitive exemplar splitter. -/
theorem c6_stratified_split_amended_witness :
    (([5] : List Value) ≠ []) ∧
    (Trainer.make exLibS exDF (1/10) exDP (some [5]) 100).X_train =
      (exLibS.train_test_split ((exDF.select (exDP.features ++ ["SalePrice"])).drop "SalePrice")
        ((exDF.select (exDP.features ++ ["SalePrice"])).getColD "SalePrice" [])
        (1/10) (some [5]) SEED).1 :=
  ⟨by decide,
   ((c6_stratified_split_amended exLibS exDF (1/10) exDP 100).2.2 [5] (by decide)).1⟩

/-- C9: `Trainer.benchmark` mutates the stored validation feature table in
place: `retrieve_predictions` returns the trainer unchanged except that
`X_valid` is replaced by the very table it returns (the Python aliasing), so
after `benchmark` the trainer holds the written prediction table as its
`X_valid`, which additionally contains the SalePrice column and, per
candidate, a prediction column and an error column; all other trainer fields
(seed-split partitions, features, ensemble size, candidate set) are untouched
by `retrieve_predictions`. -/
theorem c9_benchmark_mutates_X_valid (lib : Lib) (train : DataFrame) (vf : ℚ)
    (dp : DataPrep) (strat : Option (List Value)) (n : ℕ) (f : String) :
    (∀ tr : Trainer, tr.retrieve_predictions.2 = { tr with X_valid := tr.retrieve_predictions.1 }) ∧
    ((Trainer.make lib train vf dp strat n).benchmark lib f).trainer.X_valid =
      ((Trainer.make lib train vf dp strat n).benchmark lib f).pred_csv.2 ∧
    ((Trainer.make lib train vf dp strat n).benchmark lib f).pred_csv.2.hasCol "SalePrice" = true ∧
    (∀ name, name ∈ (Trainer.make lib train vf dp strat n).models.map Prod.fst →
      ((Trainer.make lib train vf dp strat n).benchmark lib f).pred_csv.2.hasCol
        ("price_predict_" ++ name) = true ∧
      ((Trainer.make lib train vf dp strat n).benchmark lib f).pred_csv.2.hasCol
        (rm_space name ++ "_error") = true) ∧
    ((Trainer.make lib train vf dp strat n).benchmark lib f).trainer.n_estimator =
      (Trainer.make lib train vf dp strat n).n_estimator ∧
    ((Trainer.make lib train vf dp strat n).benchmark lib f).trainer.features =
      (Trainer.make lib train vf dp strat n).features ∧
    ((Trainer.make lib train vf dp strat n).benchmark lib f).trainer.X_train =
      (Trainer.make lib train vf dp strat n).X_train ∧
    ((Trainer.make lib train vf dp strat n).benchmark lib f).trainer.y_train =
      (Trainer.make lib train vf dp strat n).y_train ∧
    ((Trainer.make lib train vf dp strat n).benchmark lib f).trainer.y_valid =
      (Trainer.make lib train vf dp strat n).y_valid ∧
    ((Trainer.make lib train vf dp strat n).benchmark lib f).trainer.models =
      (Trainer.make lib train vf dp strat n).models := by
  refine ⟨fun tr => rfl, rfl, ?_, ?_, rfl, rfl, rfl, rfl, rfl, rfl⟩
  · simp +decide [Trainer.benchmark, Trainer.make, Trainer.eval, Trainer.retrieve_predictions,
      set_tree_models, Trainer.dump_predictor, hasCol_setCol]
  · intro name hname
    simp [Trainer.make, set_tree_models] at hname
    rcases hname with rfl | rfl | rfl <;>
    · constructor <;>
        simp +decide [Trainer.benchmark, Trainer.make, Trainer.eval, Trainer.retrieve_predictions,
          set_tree_models, Trainer.dump_predictor, hasCol_setCol, rm_space]

/-- C9 witness: the per-candidate column part at the XGBoost candidate of the
exemplar run. -/
theorem c9_benchmark_mutates_X_valid_witness :
    ("XGBoost" ∈ (Trainer.make exLib exDF (1/10) exDP none 100).models.map Prod.fst) ∧
    ((Trainer.make exLib exDF (1/10) exDP none 100).benchmark exLib "p.csv").pred_csv.2.hasCol
      ("price_predict_" ++ "XGBoost") = true ∧
    ((Trainer.make exLib exDF (1/10) exDP none 100).benchmark exLib "p.csv").pred_csv.2.hasCol
      (rm_space "XGBoost" ++ "_error") = true :=
  ⟨by decide,
   (c9_benchmark_mutates_X_valid exLib exDF (1/10) exDP none 100 "p.csv").2.2.2.1
     "XGBoost" (by decide)⟩

/-- C10: for every candidate, `Trainer.eval` fits the model, performs the
predictor dump and records the validation predictions before attempting the
metric, so even when the metric is undefined for the candidate predictions the
predictor file of the candidate is among the dumps of the run and its
prediction and error columns appear in the output prediction table. -/
theorem c10_dump_and_columns_despite_nan (lib : Lib) (train : DataFrame) (vf : ℚ)
    (dp : DataPrep) (strat : Option (List Value)) (n : ℕ) (f : String)
    (name : String) (m : RegModel)
    (hm : (name, m) ∈ (Trainer.make lib train vf dp strat n).models)
    (hund : exceptToOption (mean_squared_log_error lib.log1p
      (Trainer.make lib train vf dp strat n).y_valid
      ((m.fit (Trainer.make lib train vf dp strat n).X_train
        (Trainer.make lib train vf dp strat n).y_train).predict
          (Trainer.make lib train vf dp strat n).X_valid)) = none) :
    os_path_join MODEL_DIR (rm_space name ++ toString n ++ ".pkl") ∈
      ((Trainer.make lib train vf dp strat n).benchmark lib f).dumps.map Prod.fst ∧
    getAssocD ((Trainer.make lib train vf dp strat n).benchmark lib f).trainer.predictions
        name [] =
      (m.fit (Trainer.make lib train vf dp strat n).X_train
        (Trainer.make lib train vf dp strat n).y_train).predict
          (Trainer.make lib train vf dp strat n).X_valid ∧
    ((Trainer.make lib train vf dp strat n).benchmark lib f).pred_csv.2.hasCol
      ("price_predict_" ++ name) = true ∧
    ((Trainer.make lib train vf dp strat n).benchmark lib f).pred_csv.2.hasCol
      (rm_space name ++ "_error") = true := by
  simp [Trainer.make, set_tree_models, List.mem_cons, Prod.mk.injEq] at hm
  rcases hm with ⟨rfl, rfl⟩ | ⟨rfl, rfl⟩ | ⟨rfl, rfl⟩ <;>
  · refine ⟨?_, ?_, ?_, ?_⟩ <;>
      simp +decide [Trainer.benchmark, Trainer.make, Trainer.eval, Trainer.retrieve_predictions,
        set_tree_models, Trainer.dump_predictor, setAssoc, getAssocD, hasCol_setCol, rm_space,
        os_path_join, MODEL_DIR]

/-- C10 witness: the random forest candidate at the exemplar inputs, whose
metric is undefined, still has its predictor dump, recorded predictions and
output columns. -/
theorem c10_dump_and_columns_despite_nan_witness :
    os_path_join MODEL_DIR (rm_space "Random Forest" ++ toString 100 ++ ".pkl") ∈
      ((Trainer.make exLib exDF (1/10) exDP none 100).benchmark exLib "p.csv").dumps.map
        Prod.fst ∧
    ((Trainer.make exLib exDF (1/10) exDP none 100).benchmark exLib "p.csv").pred_csv.2.hasCol
      (rm_space "Random Forest" ++ "_error") = true :=
  ⟨(c10_dump_and_columns_despite_nan exLib exDF (1/10) exDP none 100 "p.csv"
      "Random Forest" (exLib.randomForest SEED 100)
      (by simp [Trainer.make, set_tree_models]) (by decide)).1,
   (c10_dump_and_columns_despite_nan exLib exDF (1/10) exDP none 100 "p.csv"
      "Random Forest" (exLib.randomForest SEED 100)
      (by simp [Trainer.make, set_tree_models]) (by decide)).2.2.2⟩
